import Mathlib

/-!
# Whisper: the user-credential DAO (db/usercredentials.go)

A shallow embedding of `DefaultUserCredentialsDAO` and of the part of the
database it talks to.

* The MySQL table behind `UserCredential` is a list of rows, in the order in
  which an unordered `SELECT` returns them, together with a flag telling
  whether `gorm.Open` succeeds.
* The gorm calls (`Find`, `First`, `Create`, `Save`) are modelled over a table
  whose schema is the one the struct tags declare: primary key `ID`, unique
  indexes on `Username` and on `Email`. `Create` receives a pointer, so its
  hooks run; `Save` receives the struct by value, so gorm can neither run the
  `BeforeCreate` hook nor write into the value, and what follows from that is
  part of `gormSave`. SQL equality is taken to be equality of strings.
* `misc.GetEncryptedPassword` and `misc.GenerateSalt` belong to package
  `misc`, which is not embedded: the hash is a parameter `derive` of every
  function that calls it, and the values drawn from outside during a call
  (`misc.GenerateSalt()`, `uuid.New()`, the clock) are the fields of `Fresh`.
* `gohtypes.Panic` and `gohtypes.PanicIfError` do not return; they are the
  `Failure.panic` outcome.
-/

namespace Whisper

/-! ## Data model -/

/-- UserCredential holds the information from a user credential. Times are
counted in ticks, the zero time being `0`. -/
structure UserCredential where
  ID : String
  Username : String
  Email : String
  Password : String
  Salt : String
  Authenticated : Bool
  CreatedAt : Nat
  UpdatedAt : Nat
  deriving DecidableEq, Repr

/-- The Go zero value `UserCredential{}`. -/
def UserCredential.zero : UserCredential :=
  { ID := "", Username := "", Email := "", Password := "", Salt := "",
    Authenticated := false, CreatedAt := 0, UpdatedAt := 0 }

/-- DefaultUserCredentialsDAO, a default UserCredentialsDAO implementation. -/
structure DefaultUserCredentialsDAO where
  DatabaseURL : String
  SecretKey : String
  deriving DecidableEq, Repr

/-- The type of `misc.GetEncryptedPassword(secretKey, password, salt)`. -/
abbrev Derive := String → String → String → String

/-- Errors that come out of gorm. -/
inductive DBError where
  /-- `gorm.Open` could not reach the database -/
  | openFailed
  /-- `gorm.ErrRecordNotFound` -/
  | recordNotFound
  /-- MySQL error 1062: a primary key or unique index would hold a key twice -/
  | duplicateEntry
  /-- the INSERT is refused: it carries no value for the primary key -/
  | insertRefused
  deriving DecidableEq, Repr

/-- The ways a DAO method can fail to deliver. -/
inductive Failure where
  /-- a gorm error returned unchanged -/
  | db (err : DBError)
  /-- a returned `*gohtypes.Error` with its Message, Code and Err fields -/
  | goh (message : String) (code : Nat) (err : Option DBError)
  /-- a `gohtypes.Panic` or `gohtypes.PanicIfError` that fired -/
  | panic (message : String) (code : Nat) (err : Option DBError)
  /-- a run-time panic of Go: reflection on a value that cannot be addressed -/
  | runtimePanic
  deriving DecidableEq, Repr

deriving instance DecidableEq for Except

/-- The database: is it reachable, and the rows of the credentials table. -/
structure Database where
  reachable : Bool
  rows : List UserCredential
  deriving DecidableEq, Repr

/-- What one call draws from outside: the result of `misc.GenerateSalt()`, of
`uuid.New().String()` and the current time. -/
structure Fresh where
  salt : String
  uuid : String
  now : Nat
  deriving DecidableEq, Repr

/-! ## The gorm calls -/

/-- The call `gorm.Open("mysql", dao.DatabaseURL)`. -/
def gormOpen (d : Database) : Except DBError (List UserCredential) :=
  if d.reachable then .ok d.rows else .error .openFailed

/-- The query `Where("username = ?", username).Or("email = ?", email).Find(&users)`:
every row matching either condition, in table order. -/
def gormFind (rows : List UserCredential) (username email : String) : List UserCredential :=
  rows.filter (fun r => r.Username == username || r.Email == email)

/-- The query `Where("username = ?", username).First(&userCredential)`: the
destination after the call (left at its zero value when nothing matches) and
the `Error` of the returned handle. Under the unique index on `Username` at
most one row matches, so the ordering by primary key that `First` adds plays
no part; on any other table the first match in table order is taken. -/
def gormFirst (rows : List UserCredential) (username : String) :
    UserCredential × Option DBError :=
  match rows.find? (fun r => r.Username == username) with
  | some r => (r, none)
  | none => (UserCredential.zero, some .recordNotFound)

/-- The call `Create(&value)`: the `BeforeCreate` hook sets a new UUID, blank
timestamps are set to the current time, and the row is appended unless the
primary key or a unique index would hold a key twice. Yields the row as
written and the new table. -/
def gormCreate (rows : List UserCredential) (value : UserCredential) (f : Fresh) :
    Except DBError (UserCredential × List UserCredential) :=
  let row : UserCredential :=
    { value with
      ID := f.uuid
      CreatedAt := if value.CreatedAt = 0 then f.now else value.CreatedAt
      UpdatedAt := if value.UpdatedAt = 0 then f.now else value.UpdatedAt }
  if rows.any (fun r => r.ID == row.ID || r.Username == row.Username || r.Email == row.Email)
  then .error .duplicateEntry
  else .ok (row, rows ++ [row])

/-- The call `Save(value)` of line 140, the struct being passed by value.
With a blank primary key gorm takes the create path, but the `BeforeCreate`
hook (pointer receiver) cannot run on a value, the INSERT goes out without an
id and is refused: nothing is written. Otherwise every column but the
timestamps of the rows with that primary key is rewritten (`UpdatedAt` cannot
be set on a value). When that changes no row, MySQL reports zero rows affected,
gorm falls back to `FirstOrCreate(value)` and panics on the value it cannot
address. The rewrite is refused when the table would then hold the new
username or the new email more than once, which is what the two unique indexes
check. -/
def gormSave (rows : List UserCredential) (value : UserCredential) :
    Except Failure (List UserCredential) :=
  if value.ID = "" then
    .error (.db .insertRefused)
  else
    let rows2 := rows.map (fun r => if r.ID = value.ID then value else r)
    if rows2 = rows then
      .error .runtimePanic
    else if 1 < (rows2.filter (fun r => r.Username == value.Username)).length
        || 1 < (rows2.filter (fun r => r.Email == value.Email)).length
    then .error (.db .duplicateEntry)
    else .ok rows2

/-! ## The DAO methods -/

/-- The loop of CreateUserCredential over the rows that `Find` returned: the
first row that has the username or the email decides which panic fires. -/
def takenCheck (username email : String) : List UserCredential → Option Failure
  | [] => none
  | user :: rest =>
    if user.Username = username then
      some (.panic "Username already taken" 409 none)
    else if user.Email = email then
      some (.panic "Email already taken" 409 none)
    else takenCheck username email rest

/-- CreateUserCredential creates a user. Yields the returned pair (the new ID,
or the error or panic) and the database after the call. -/
def CreateUserCredential (dao : DefaultUserCredentialsDAO) (derive : Derive) (f : Fresh)
    (d : Database) (username password email : String) (authenticated : Bool) :
    Except Failure String × Database :=
  match gormOpen d with
  | .error err => (.error (.db err), d)
  | .ok rows =>
    let users := gormFind rows username email
    match takenCheck username email users with
    | some p => (.error p, d)
    | none =>
      let salt := f.salt
      let hPassword := derive dao.SecretKey password salt
      let userCredential : UserCredential :=
        { UserCredential.zero with
          Username := username
          Password := hPassword
          Email := email
          Salt := salt
          Authenticated := authenticated }
      match gormCreate rows userCredential f with
      | .error err => (.error (.db err), d)
      | .ok (row, rows2) => (.ok row.ID, { d with rows := rows2 })

/-- UpdateUserCredential updates a user. Yields how the call ends (`none` for
a nil return, `some (.db err)` for a returned error, `some .runtimePanic` when
`Save` panics) and the database after the call. The handle that `First`
returns is dropped, so its error is never looked at. -/
def UpdateUserCredential (dao : DefaultUserCredentialsDAO) (derive : Derive) (f : Fresh)
    (d : Database) (username email password : String) (authenticated : Bool) :
    Option Failure × Database :=
  match gormOpen d with
  | .error err => (some (.db err), d)
  | .ok rows =>
    let salt := f.salt
    let hPassword := derive dao.SecretKey password salt
    let found := (gormFirst rows username).1
    let userCredential : UserCredential :=
      { found with
        Password := hPassword
        Salt := salt
        Email := email
        Authenticated := authenticated }
    match gormSave rows userCredential with
    | .error e => (some e, d)
    | .ok rows2 => (none, { d with rows := rows2 })

/-- GetUserCredential gets an user credential: the returned pair. -/
def GetUserCredential (d : Database) (username : String) :
    UserCredential × Option DBError :=
  match gormOpen d with
  | .error err => (UserCredential.zero, some err)
  | .ok rows => gormFirst rows username

/-- AuthenticateUserCredential: reads the credential and hands its stored
fields, the stored Password among them, to UpdateUserCredential. An error
that a call returns fires `gohtypes.PanicIfError`; a panic of the update goes
through as it is. -/
def AuthenticateUserCredential (dao : DefaultUserCredentialsDAO) (derive : Derive) (f : Fresh)
    (d : Database) (username : String) : Except Failure Unit × Database :=
  match GetUserCredential d username with
  | (_, some err) => (.error (.panic "Unable to retrieve user" 500 (some err)), d)
  | (userCredential, none) =>
    match UpdateUserCredential dao derive f d userCredential.Username userCredential.Email
        userCredential.Password true with
    | (some (.db err), d2) => (.error (.panic "Unable to update user" 500 (some err)), d2)
    | (some other, d2) => (.error other, d2)
    | (none, d2) => (.ok (), d2)

/-- CheckCredentials verifies if the informed credentials are valid. -/
def CheckCredentials (dao : DefaultUserCredentialsDAO) (derive : Derive)
    (d : Database) (username password : String) : Except Failure Unit :=
  match GetUserCredential d username with
  | (_, some err) => .error (.goh "Unable to authenticate user" 500 (some err))
  | (userCredential, none) =>
    let hPassword := derive dao.SecretKey password userCredential.Salt
    if hPassword ≠ userCredential.Password then
      .error (.goh "Incorrect password" 401 none)
    else if !userCredential.Authenticated then
      .error (.goh "This account email is not authenticated" 401 none)
    else .ok ()

/-! ## Derived notions used by the statements -/

/-- The uniqueness invariant: no two rows share a username, no two an email. -/
def Unique (rows : List UserCredential) : Prop :=
  (rows.map (fun r => r.Username)).Nodup ∧ (rows.map (fun r => r.Email)).Nodup

instance (rows : List UserCredential) : Decidable (Unique rows) := by
  unfold Unique; infer_instance

/-- One call of CreateUserCredential: what it draws and its arguments. -/
structure CreateCall where
  fresh : Fresh
  username : String
  password : String
  email : String
  authenticated : Bool
  deriving DecidableEq, Repr

/-- The database after a sequence of CreateUserCredential calls, executed one
after another. -/
def runCreates (dao : DefaultUserCredentialsDAO) (derive : Derive) :
    List CreateCall → Database → Database
  | [], d => d
  | c :: cs, d =>
    runCreates dao derive cs
      (CreateUserCredential dao derive c.fresh d c.username c.password c.email c.authenticated).2

/-- A stand-in derivation used only to evaluate the methods on examples. -/
def toyDerive : Derive := fun key password salt => key ++ "/" ++ password ++ "/" ++ salt

/-- The row that CreateUserCredential writes. -/
def createdRow (dao : DefaultUserCredentialsDAO) (derive : Derive) (f : Fresh)
    (username password email : String) (authenticated : Bool) : UserCredential :=
  { ID := f.uuid, Username := username, Email := email,
    Password := derive dao.SecretKey password f.salt, Salt := f.salt,
    Authenticated := authenticated, CreatedAt := f.now, UpdatedAt := f.now }

/-- The row that UpdateUserCredential writes over `record`. -/
def updatedRow (dao : DefaultUserCredentialsDAO) (derive : Derive) (f : Fresh)
    (record : UserCredential) (email password : String) (authenticated : Bool) :
    UserCredential :=
  { record with
    Password := derive dao.SecretKey password f.salt
    Salt := f.salt
    Email := email
    Authenticated := authenticated }

/-- The table after the rows with the primary key of `record` are rewritten. -/
def rewritten (rows : List UserCredential) (record row : UserCredential) :
    List UserCredential :=
  rows.map (fun r => if r.ID = record.ID then row else r)

/-! ## Example data -/

/-- A DAO with secret key "k". -/
def exDao : DefaultUserCredentialsDAO := { DatabaseURL := "db", SecretKey := "k" }

/-- Draws of a first call. -/
def exFresh1 : Fresh := { salt := "s1", uuid := "id1", now := 1 }

/-- Draws of a second call. -/
def exFresh2 : Fresh := { salt := "s2", uuid := "id2", now := 2 }

/-- A reachable database with no rows. -/
def exEmpty : Database := { reachable := true, rows := [] }

/-- The row of bob, authenticated, password "hunter2". -/
def exBob : UserCredential :=
  { ID := "id0", Username := "bob", Email := "bob@x.com", Password := "k/hunter2/s0",
    Salt := "s0", Authenticated := true, CreatedAt := 0, UpdatedAt := 0 }

/-- The row of alice, not authenticated, password "Sup3r". -/
def exAlice : UserCredential :=
  { ID := "id1", Username := "alice", Email := "alice@x.com", Password := "k/Sup3r/s1",
    Salt := "s1", Authenticated := false, CreatedAt := 1, UpdatedAt := 1 }

/-- A reachable database holding bob, then alice. -/
def exDb : Database := { reachable := true, rows := [exBob, exAlice] }

/-- Three calls: alice, bob, and alice again with another email. -/
def exCalls : List CreateCall :=
  [{ fresh := { salt := "s1", uuid := "id1", now := 1 }, username := "alice",
     password := "Sup3r", email := "alice@x.com", authenticated := false },
   { fresh := { salt := "s2", uuid := "id2", now := 2 }, username := "bob",
     password := "hunter2", email := "bob@x.com", authenticated := true },
   { fresh := { salt := "s3", uuid := "id3", now := 3 }, username := "alice",
     password := "other", email := "alice2@x.com", authenticated := false }]

/-! ## Lookup and CheckCredentials -/

theorem gormFirst_none {rows : List UserCredential} {username : String}
    (h : ∀ r ∈ rows, r.Username ≠ username) :
    gormFirst rows username = (UserCredential.zero, some .recordNotFound) := by
  have : rows.find? (fun r => r.Username == username) = none := by
    rw [List.find?_eq_none]
    intro r hr
    simpa using h r hr
  simp [gormFirst, this]

theorem gormFirst_some {rows : List UserCredential} {username : String} {record : UserCredential}
    (h : rows.find? (fun r => r.Username == username) = some record) :
    gormFirst rows username = (record, none) := by
  simp [gormFirst, h]

theorem find_some_mem {rows : List UserCredential} {username : String} {record : UserCredential}
    (h : rows.find? (fun r => r.Username == username) = some record) :
    record ∈ rows ∧ record.Username = username := by
  refine ⟨List.mem_of_find?_eq_some h, ?_⟩
  simpa using List.find?_some h

theorem CheckCredentials_found (dao : DefaultUserCredentialsDAO) (derive : Derive)
    (d : Database) (username password : String) (record : UserCredential)
    (hd : d.reachable = true)
    (h : d.rows.find? (fun r => r.Username == username) = some record) :
    CheckCredentials dao derive d username password =
      if derive dao.SecretKey password record.Salt ≠ record.Password then
        .error (.goh "Incorrect password" 401 none)
      else if record.Authenticated = false then
        .error (.goh "This account email is not authenticated" 401 none)
      else .ok () := by
  simp only [CheckCredentials, GetUserCredential, gormOpen, hd, if_true, gormFirst_some h]
  by_cases h1 : derive dao.SecretKey password record.Salt = record.Password
  · cases h2 : record.Authenticated <;> simp [h1, h2]
  · simp [h1]

/-- C1. On a reachable database CheckCredentials decides in this order: no row
with the username gives the failure "Unable to authenticate user"; else a
derived hash that differs from the stored one gives "Incorrect password",
whatever the Authenticated flag; else a false flag gives "This account email
is not authenticated"; else it succeeds. It succeeds exactly when a row with
the username exists, the hashes agree and the row is authenticated. -/
theorem CheckCredentials_decides (dao : DefaultUserCredentialsDAO) (derive : Derive)
    (d : Database) (username password : String) (hd : d.reachable = true) :
    ((∀ r ∈ d.rows, r.Username ≠ username) →
      CheckCredentials dao derive d username password =
        .error (.goh "Unable to authenticate user" 500 (some .recordNotFound)))
    ∧ (∀ record, d.rows.find? (fun r => r.Username == username) = some record →
        (derive dao.SecretKey password record.Salt ≠ record.Password →
          CheckCredentials dao derive d username password =
            .error (.goh "Incorrect password" 401 none))
        ∧ (derive dao.SecretKey password record.Salt = record.Password →
            record.Authenticated = false →
            CheckCredentials dao derive d username password =
              .error (.goh "This account email is not authenticated" 401 none))
        ∧ (derive dao.SecretKey password record.Salt = record.Password →
            record.Authenticated = true →
            CheckCredentials dao derive d username password = .ok ()))
    ∧ (CheckCredentials dao derive d username password = .ok () ↔
        ∃ record, record ∈ d.rows ∧ record.Username = username
          ∧ d.rows.find? (fun r => r.Username == username) = some record
          ∧ derive dao.SecretKey password record.Salt = record.Password
          ∧ record.Authenticated = true) := by
  refine ⟨?_, ?_, ?_⟩
  · intro h
    simp [CheckCredentials, GetUserCredential, gormOpen, hd, gormFirst_none h]
  · intro record h
    rw [CheckCredentials_found dao derive d username password record hd h]
    refine ⟨?_, ?_, ?_⟩
    · intro h1; simp [h1]
    · intro h1 h2; simp [h1, h2]
    · intro h1 h2; simp [h1, h2]
  · constructor
    · intro hok
      cases hf : d.rows.find? (fun r => r.Username == username) with
      | none =>
        have hnone : ∀ r ∈ d.rows, r.Username ≠ username := by
          intro r hr
          simpa using (List.find?_eq_none.mp hf) r hr
        simp [CheckCredentials, GetUserCredential, gormOpen, hd, gormFirst_none hnone] at hok
      | some record =>
        rw [CheckCredentials_found dao derive d username password record hd hf] at hok
        refine ⟨record, (find_some_mem hf).1, (find_some_mem hf).2, rfl, ?_, ?_⟩
        · by_contra h1
          simp [h1] at hok
        · by_contra h2
          have h2f : record.Authenticated = false := by simpa using h2
          by_cases h1 : derive dao.SecretKey password record.Salt = record.Password
          · simp [h1, h2f] at hok
          · simp [h1] at hok
    · rintro ⟨record, -, -, hf, h1, h2⟩
      rw [CheckCredentials_found dao derive d username password record hd hf]
      simp [h1, h2]

/-- C1 on the example: bob passes, alice has the right password but is not
authenticated, a wrong password is reported first, carol is unknown. -/
theorem CheckCredentials_decides_witness :
    CheckCredentials exDao toyDerive exDb "bob" "hunter2" = .ok ()
    ∧ CheckCredentials exDao toyDerive exDb "alice" "Sup3r"
        = .error (.goh "This account email is not authenticated" 401 none)
    ∧ CheckCredentials exDao toyDerive exDb "alice" "wrongpw"
        = .error (.goh "Incorrect password" 401 none)
    ∧ CheckCredentials exDao toyDerive exDb "carol" "pw"
        = .error (.goh "Unable to authenticate user" 500 (some .recordNotFound)) :=
  ⟨((CheckCredentials_decides exDao toyDerive exDb "bob" "hunter2" (by decide)).2.1
      exBob (by decide)).2.2 (by decide) (by decide),
   ((CheckCredentials_decides exDao toyDerive exDb "alice" "Sup3r" (by decide)).2.1
      exAlice (by decide)).2.1 (by decide) (by decide),
   ((CheckCredentials_decides exDao toyDerive exDb "alice" "wrongpw" (by decide)).2.1
      exAlice (by decide)).1 (by decide),
   (CheckCredentials_decides exDao toyDerive exDb "carol" "pw" (by decide)).1 (by decide)⟩

/-! ## CreateUserCredential -/

theorem takenCheck_gormFind (username email : String) (rows : List UserCredential) :
    takenCheck username email (gormFind rows username email) =
      match rows.find? (fun r => r.Username == username || r.Email == email) with
      | none => none
      | some first =>
        some (.panic (if first.Username = username then "Username already taken"
          else "Email already taken") 409 none) := by
  induction rows with
  | nil => simp [gormFind, takenCheck]
  | cons r rest ih =>
    by_cases hu : r.Username = username
    · simp [gormFind, takenCheck, List.find?, hu]
    · by_cases he : r.Email = email
      · simp [gormFind, takenCheck, List.find?, hu, he]
      · have hp : ¬ ((r.Username == username || r.Email == email) = true) := by simp [hu, he]
        simp only [gormFind] at ih
        rw [List.find?_cons_of_neg (p := fun r => r.Username == username || r.Email == email)
          rest hp]
        simp [gormFind, takenCheck, hu, he, ih]

theorem takenCheck_none {username email : String} {rows : List UserCredential}
    (hu : ∀ r ∈ rows, r.Username ≠ username) (he : ∀ r ∈ rows, r.Email ≠ email) :
    takenCheck username email (gormFind rows username email) = none := by
  have : rows.find? (fun r => r.Username == username || r.Email == email) = none := by
    rw [List.find?_eq_none]
    intro r hr
    simp [hu r hr, he r hr]
  rw [takenCheck_gormFind, this]

theorem CreateUserCredential_first_match (dao : DefaultUserCredentialsDAO) (derive : Derive)
    (f : Fresh) (d : Database) (username password email : String) (authenticated : Bool)
    (hd : d.reachable = true) (first : UserCredential)
    (h : d.rows.find? (fun r => r.Username == username || r.Email == email) = some first) :
    CreateUserCredential dao derive f d username password email authenticated =
      (.error (.panic (if first.Username = username then "Username already taken"
        else "Email already taken") 409 none), d) := by
  simp only [CreateUserCredential, gormOpen, hd, if_true, takenCheck_gormFind, h]

theorem CreateUserCredential_fresh (dao : DefaultUserCredentialsDAO) (derive : Derive)
    (f : Fresh) (d : Database) (username password email : String) (authenticated : Bool)
    (hd : d.reachable = true)
    (hu : ∀ r ∈ d.rows, r.Username ≠ username) (he : ∀ r ∈ d.rows, r.Email ≠ email) :
    CreateUserCredential dao derive f d username password email authenticated =
      if d.rows.any (fun r => r.ID == f.uuid) then (.error (.db .duplicateEntry), d)
      else (.ok f.uuid, { d with rows := d.rows ++
        [createdRow dao derive f username password email authenticated] }) := by
  have hany : d.rows.any (fun r => r.ID == f.uuid || r.Username == username || r.Email == email)
      = d.rows.any (fun r => r.ID == f.uuid) := by
    rw [Bool.eq_iff_iff]
    simp only [List.any_eq_true]
    constructor
    · rintro ⟨r, hr, h⟩
      exact ⟨r, hr, by simpa [hu r hr, he r hr] using h⟩
    · rintro ⟨r, hr, h⟩
      exact ⟨r, hr, by simp [h]⟩
  cases hc : d.rows.any (fun r => r.ID == f.uuid) with
  | true =>
    simp [CreateUserCredential, gormOpen, hd, takenCheck_none hu he, gormCreate,
      UserCredential.zero, hany, hc]
  | false =>
    cases d with
    | mk reachable rows =>
      simp only at hd hc hany hu he
      subst hd
      simp [CreateUserCredential, gormOpen, takenCheck_none hu he, gormCreate,
        UserCredential.zero, hany, hc, createdRow]

/-! ## UpdateUserCredential -/

theorem gormSave_rewrite (rows rows2 : List UserCredential) (value : UserCredential)
    (h : gormSave rows value = .ok rows2) :
    rows2 = rewritten rows value value
      ∧ rows2 ≠ rows
      ∧ (rows2.filter (fun r => r.Username == value.Username)).length ≤ 1
      ∧ (rows2.filter (fun r => r.Email == value.Email)).length ≤ 1 := by
  unfold gormSave at h
  split at h
  · simp at h
  · simp only at h
    split at h
    · simp at h
    · rename_i hne
      split at h
      · simp at h
      · rename_i hchk
        have hrows : rows2 = rewritten rows value value := by
          simp only [rewritten]
          injection h with h
          exact h.symm
        simp only [Bool.or_eq_true, decide_eq_true_eq, not_or, not_lt] at hchk
        refine ⟨hrows, ?_, ?_, ?_⟩
        · rw [hrows]; exact hne
        · rw [hrows]; exact hchk.1
        · rw [hrows]; exact hchk.2

theorem find_rewritten (rows : List UserCredential) (username : String)
    (record row : UserCredential)
    (h : rows.find? (fun r => r.Username == username) = some record)
    (hrow : row.Username = username) :
    (rewritten rows record row).find? (fun r => r.Username == username) = some row := by
  induction rows with
  | nil => simp at h
  | cons r rest ih =>
    by_cases hu : r.Username = username
    · have : record = r := by
        simpa [List.find?, hu] using h.symm
      subst this
      simp [rewritten, List.find?, hrow]
    · have hp : ¬ ((fun r : UserCredential => r.Username == username) r = true) := by
        simp [hu]
      rw [List.find?_cons_of_neg rest hp] at h
      by_cases hid : r.ID = record.ID
      · simp [rewritten, List.find?, hid, hrow]
      · have := ih h
        simp only [rewritten] at this
        simp only [rewritten, List.map_cons, hid, if_false]
        rw [List.find?_cons_of_neg (p := fun r : UserCredential => r.Username == username) _ hp]
        exact this

/-- What a call of UpdateUserCredential that returns nil did, when the
username is stored: the rows with the primary key of the stored record are
rewritten, and the lookup by username now yields the rewritten row. -/
theorem UpdateUserCredential_found (dao : DefaultUserCredentialsDAO) (derive : Derive)
    (f : Fresh) (d : Database) (username email password : String) (authenticated : Bool)
    (record : UserCredential)
    (hf : d.rows.find? (fun r => r.Username == username) = some record)
    (hok : (UpdateUserCredential dao derive f d username email password authenticated).1 = none) :
    d.reachable = true
    ∧ (UpdateUserCredential dao derive f d username email password authenticated).2 =
        { d with rows := (rewritten d.rows record
          (updatedRow dao derive f record email password authenticated)) }
    ∧ (rewritten d.rows record
          (updatedRow dao derive f record email password authenticated)).find?
        (fun r => r.Username == username)
        = some (updatedRow dao derive f record email password authenticated)
    ∧ ((rewritten d.rows record
          (updatedRow dao derive f record email password authenticated)).filter
        (fun r => r.Username == username)).length ≤ 1
    ∧ ((rewritten d.rows record
          (updatedRow dao derive f record email password authenticated)).filter
        (fun r => r.Email == email)).length ≤ 1 := by
  have hmem := find_some_mem hf
  obtain ⟨hm, hu⟩ := hmem
  subst hu
  cases hd : d.reachable with
  | false => simp [UpdateUserCredential, gormOpen, hd] at hok
  | true =>
    simp only [UpdateUserCredential, gormOpen, hd, if_true, gormFirst_some hf] at hok ⊢
    cases hs : gormSave d.rows
        { record with
          Password := derive dao.SecretKey password f.salt
          Salt := f.salt
          Email := email
          Authenticated := authenticated } with
    | error err => simp [hs] at hok
    | ok rows2 =>
      obtain ⟨h1, -, h2, h3⟩ := gormSave_rewrite _ _ _ hs
      simp only [rewritten, updatedRow] at h1 h2 h3 ⊢
      have hfind := find_rewritten d.rows record.Username record
        (updatedRow dao derive f record email password authenticated) hf
        (by simp [updatedRow])
      simp only [rewritten, updatedRow] at hfind
      subst h1
      exact ⟨trivial, by simp [hd], hfind, h2, h3⟩

/-! ## Claims on CreateUserCredential -/

/-- C3, as stated, fails: bob holds the email and alice the username, the
store returns bob first, and the call for (alice, bob's email) panics with
"Email already taken" although a stored record has the username. -/
theorem CreateUserCredential_username_priority_counterexample :
    (∃ r ∈ exDb.rows, r.Username = "alice")
    ∧ CreateUserCredential exDao toyDerive exFresh2 exDb "alice" "pw" "bob@x.com" false
        = (.error (.panic "Email already taken" 409 none), exDb) := by
  decide

/-- C3, amended. On a reachable database, when some row has the username or
the email, CreateUserCredential panics with a 409 conflict and the database is
left as it was. The first matching row, in the order the store returns them,
decides the message: "Username already taken" when it has the username,
"Email already taken" otherwise. So the username conflict is reported when no
row with another username has the email, and the email conflict when no row
has the username. -/
theorem CreateUserCredential_conflict (dao : DefaultUserCredentialsDAO) (derive : Derive)
    (f : Fresh) (d : Database) (username password email : String) (authenticated : Bool)
    (hd : d.reachable = true) :
    (∀ first, d.rows.find? (fun r => r.Username == username || r.Email == email) = some first →
      CreateUserCredential dao derive f d username password email authenticated =
        (.error (.panic (if first.Username = username then "Username already taken"
          else "Email already taken") 409 none), d))
    ∧ ((∃ r ∈ d.rows, r.Username = username ∨ r.Email = email) →
        CreateUserCredential dao derive f d username password email authenticated =
            (.error (.panic "Username already taken" 409 none), d)
          ∨ CreateUserCredential dao derive f d username password email authenticated =
            (.error (.panic "Email already taken" 409 none), d))
    ∧ ((∃ r ∈ d.rows, r.Username = username) →
        (∀ r ∈ d.rows, r.Email = email → r.Username = username) →
        CreateUserCredential dao derive f d username password email authenticated =
          (.error (.panic "Username already taken" 409 none), d))
    ∧ ((∀ r ∈ d.rows, r.Username ≠ username) → (∃ r ∈ d.rows, r.Email = email) →
        CreateUserCredential dao derive f d username password email authenticated =
          (.error (.panic "Email already taken" 409 none), d)) := by
  have key := CreateUserCredential_first_match dao derive f d username password email
    authenticated hd
  have hex : (∃ r ∈ d.rows, r.Username = username ∨ r.Email = email) →
      ∃ first, d.rows.find? (fun r => r.Username == username || r.Email == email) = some first
        ∧ first ∈ d.rows ∧ (first.Username = username ∨ first.Email = email) := by
    rintro ⟨r, hr, h⟩
    cases hfd : d.rows.find? (fun r => r.Username == username || r.Email == email) with
    | none =>
      have := (List.find?_eq_none.mp hfd) r hr
      simp at this
      rcases h with h | h
      · exact absurd h this.1
      · exact absurd h this.2
    | some first =>
      refine ⟨first, rfl, List.mem_of_find?_eq_some hfd, ?_⟩
      simpa using List.find?_some hfd
  refine ⟨key, ?_, ?_, ?_⟩
  · intro h
    obtain ⟨first, hfd, -, -⟩ := hex h
    rw [key first hfd]
    by_cases hu : first.Username = username
    · left; simp [hu]
    · right; simp [hu]
  · rintro ⟨r, hr, hru⟩ hall
    obtain ⟨first, hfd, hmem, hm⟩ := hex ⟨r, hr, Or.inl hru⟩
    have hu : first.Username = username := by
      rcases hm with h | h
      · exact h
      · exact hall first hmem h
    rw [key first hfd]
    simp [hu]
  · rintro hno ⟨r, hr, hre⟩
    obtain ⟨first, hfd, hmem, -⟩ := hex ⟨r, hr, Or.inr hre⟩
    rw [key first hfd]
    simp [hno first hmem]

/-- The email conflict of C3 on the example: bob holds the email, nobody the
username carol. -/
theorem CreateUserCredential_conflict_witness :
    CreateUserCredential exDao toyDerive exFresh2 exDb "carol" "pw" "bob@x.com" true
      = (.error (.panic "Email already taken" 409 none), exDb) :=
  (CreateUserCredential_conflict exDao toyDerive exFresh2 exDb "carol" "pw" "bob@x.com" true
    (by decide)).2.2.2 (by decide) (by decide)

/-- C5. On a reachable database in which no row has the username or the
email, a call of CreateUserCredential whose insert does not fail appends
exactly one row and leaves the others as they were; it returns the ID of the
new row, which has the given username and email, the requested flag, the
generated salt, and the hash derived from the secret key, the password and that
salt. -/
theorem CreateUserCredential_inserts (dao : DefaultUserCredentialsDAO) (derive : Derive)
    (f : Fresh) (d : Database) (username password email : String) (authenticated : Bool)
    (hd : d.reachable = true)
    (hu : ∀ r ∈ d.rows, r.Username ≠ username) (he : ∀ r ∈ d.rows, r.Email ≠ email)
    (hins : ∀ err, (CreateUserCredential dao derive f d username password email
      authenticated).1 ≠ .error (.db err)) :
    ∃ row : UserCredential,
      CreateUserCredential dao derive f d username password email authenticated =
        (.ok row.ID, { d with rows := d.rows ++ [row] })
      ∧ row.Username = username ∧ row.Email = email ∧ row.Authenticated = authenticated
      ∧ row.Salt = f.salt ∧ row.Password = derive dao.SecretKey password row.Salt := by
  refine ⟨createdRow dao derive f username password email authenticated, ?_, rfl, rfl, rfl,
    rfl, rfl⟩
  have h := CreateUserCredential_fresh dao derive f d username password email authenticated
    hd hu he
  cases hc : d.rows.any (fun r => r.ID == f.uuid) with
  | true =>
    rw [hc] at h
    exact absurd (by rw [h]; rfl) (hins .duplicateEntry)
  | false =>
    rw [hc] at h
    simpa [createdRow] using h

/-- C5 on the example: carol is added after bob and alice. -/
theorem CreateUserCredential_inserts_witness :
    ∃ row : UserCredential,
      CreateUserCredential exDao toyDerive exFresh2 exDb "carol" "pw" "carol@x.com" true =
        (.ok row.ID, { exDb with rows := exDb.rows ++ [row] })
      ∧ row.Username = "carol" ∧ row.Email = "carol@x.com" ∧ row.Authenticated = true
      ∧ row.Salt = exFresh2.salt
      ∧ row.Password = toyDerive exDao.SecretKey "pw" row.Salt :=
  CreateUserCredential_inserts exDao toyDerive exFresh2 exDb "carol" "pw" "carol@x.com" true
    (by decide) (by decide) (by decide) (by intro err; cases err <;> decide)

/-! ## Claims on UpdateUserCredential and AuthenticateUserCredential -/

/-- C6. When the username is stored and UpdateUserCredential with
authenticated = true returns nil, CheckCredentials succeeds with the new
password, and fails with "Incorrect password" for every old password whose
hash under the secret key and the new salt differs from that of the new
password. -/
theorem UpdateUserCredential_rotates (dao : DefaultUserCredentialsDAO) (derive : Derive)
    (f : Fresh) (d : Database) (username newEmail newPassword : String)
    (hex : ∃ r ∈ d.rows, r.Username = username)
    (hok : (UpdateUserCredential dao derive f d username newEmail newPassword true).1 = none) :
    CheckCredentials dao derive
        (UpdateUserCredential dao derive f d username newEmail newPassword true).2
        username newPassword = .ok ()
    ∧ ∀ oldPassword,
        derive dao.SecretKey oldPassword f.salt ≠ derive dao.SecretKey newPassword f.salt →
        CheckCredentials dao derive
          (UpdateUserCredential dao derive f d username newEmail newPassword true).2
          username oldPassword = .error (.goh "Incorrect password" 401 none) := by
  obtain ⟨r, hr, hru⟩ := hex
  cases hfd : d.rows.find? (fun r => r.Username == username) with
  | none =>
    have := (List.find?_eq_none.mp hfd) r hr
    simp [hru] at this
  | some record =>
    obtain ⟨hd, h2, hfind, -, -⟩ := UpdateUserCredential_found dao derive f d username newEmail
      newPassword true record hfd hok
    rw [h2]
    have hchk := fun password => CheckCredentials_found dao derive
      ⟨d.reachable, rewritten d.rows record (updatedRow dao derive f record newEmail
        newPassword true)⟩ username password _ hd hfind
    constructor
    · rw [hchk newPassword]
      simp [updatedRow]
    · intro oldPassword hne
      rw [hchk oldPassword]
      simp [updatedRow, hne]

/-- C6 on the example: alice moves from "Sup3r" to "NewPass1!". -/
theorem UpdateUserCredential_rotates_witness :
    CheckCredentials exDao toyDerive
        (UpdateUserCredential exDao toyDerive exFresh2 exDb "alice" "alice2@x.com"
          "NewPass1!" true).2 "alice" "NewPass1!" = .ok ()
    ∧ CheckCredentials exDao toyDerive
        (UpdateUserCredential exDao toyDerive exFresh2 exDb "alice" "alice2@x.com"
          "NewPass1!" true).2 "alice" "Sup3r" = .error (.goh "Incorrect password" 401 none) :=
  have h := UpdateUserCredential_rotates exDao toyDerive exFresh2 exDb "alice" "alice2@x.com"
    "NewPass1!" (by decide) (by decide)
  ⟨h.1, h.2 "Sup3r" (by decide)⟩

theorem UpdateUserCredential_absent (dao : DefaultUserCredentialsDAO) (derive : Derive)
    (f : Fresh) (d : Database) (username email password : String) (authenticated : Bool)
    (hd : d.reachable = true) (hno : ∀ r ∈ d.rows, r.Username ≠ username) :
    UpdateUserCredential dao derive f d username email password authenticated =
      (some (.db .insertRefused), d) := by
  simp [UpdateUserCredential, gormOpen, hd, gormFirst_none hno, gormSave, UserCredential.zero]

/-- C7, the code at an unknown username. UpdateUserCredential never ends with
the record-not-found error of gorm: the error of the lookup is dropped, the
zero-valued record goes to Save with a blank primary key, and on a reachable
database the call returns the error of the refused INSERT and writes nothing.
So it does for "ghost", which exDb does not hold. -/
theorem UpdateUserCredential_unknown_username :
    (∀ (dao : DefaultUserCredentialsDAO) (derive : Derive) (f : Fresh) (d : Database)
        (username email password : String) (authenticated : Bool),
      (UpdateUserCredential dao derive f d username email password authenticated).1
        ≠ some (.db .recordNotFound))
    ∧ (∀ (dao : DefaultUserCredentialsDAO) (derive : Derive) (f : Fresh) (d : Database)
        (username email password : String) (authenticated : Bool),
      d.reachable = true → (∀ r ∈ d.rows, r.Username ≠ username) →
      UpdateUserCredential dao derive f d username email password authenticated =
        (some (.db .insertRefused), d))
    ∧ (∀ r ∈ exDb.rows, r.Username ≠ "ghost")
    ∧ UpdateUserCredential exDao toyDerive exFresh2 exDb "ghost" "ghost@x.com" "pw" false =
        (some (.db .insertRefused), exDb) := by
  refine ⟨?_, ?_, by decide, by decide⟩
  · intro dao derive f d username email password authenticated
    have hs : ∀ (rows : List UserCredential) (value : UserCredential),
        gormSave rows value ≠ .error (.db .recordNotFound) := by
      intro rows value
      unfold gormSave
      split
      · simp
      · simp only
        split
        · simp
        · split <;> simp
    unfold UpdateUserCredential gormOpen
    split
    · rename_i err heq
      split at heq <;> simp at heq
      subst heq
      simp
    · simp only
      split
      · rename_i e heq
        intro h
        simp at h
        subst h
        exact hs _ _ heq
      · simp
  · intro dao derive f d username email password authenticated hd hno
    exact UpdateUserCredential_absent dao derive f d username email password authenticated
      hd hno

/-- What a call of AuthenticateUserCredential that returns did, when the
username is stored: the row that the lookup by username now yields is the
stored one with the flag set, the fresh salt, and the hash of the stored hash
under that salt. -/
theorem AuthenticateUserCredential_found (dao : DefaultUserCredentialsDAO) (derive : Derive)
    (f : Fresh) (d : Database) (username : String) (record : UserCredential)
    (hf : d.rows.find? (fun r => r.Username == username) = some record)
    (hok : (AuthenticateUserCredential dao derive f d username).1 = .ok ()) :
    (AuthenticateUserCredential dao derive f d username).2.rows.find?
        (fun r => r.Username == username)
      = some { record with
          Authenticated := true
          Salt := f.salt
          Password := derive dao.SecretKey record.Password f.salt } := by
  obtain ⟨-, hu⟩ := find_some_mem hf
  subst hu
  cases hd : d.reachable with
  | false => simp [AuthenticateUserCredential, GetUserCredential, gormOpen, hd] at hok
  | true =>
    have hget : GetUserCredential d record.Username = (record, none) := by
      simp [GetUserCredential, gormOpen, hd, gormFirst_some hf]
    simp only [AuthenticateUserCredential, hget] at hok ⊢
    cases hup : UpdateUserCredential dao derive f d record.Username record.Email
        record.Password true with
    | mk err d2 =>
      cases err with
      | some e =>
        rw [hup] at hok
        cases e <;> simp at hok
      | none =>
        obtain ⟨-, h2, hfind, -, -⟩ := UpdateUserCredential_found dao derive f d
          record.Username record.Email record.Password true record hf (by rw [hup])
        rw [hup] at h2
        simp only at h2
        subst h2
        simpa [updatedRow] using hfind

theorem AuthenticateUserCredential_exAlice (derive : Derive) :
    AuthenticateUserCredential exDao derive exFresh2 exDb "alice" =
      (.ok (), { exDb with rows :=
        [exBob,
         { exAlice with
           Authenticated := true
           Salt := "s2"
           Password := derive "k" exAlice.Password "s2" }] }) := by
  have hget : GetUserCredential exDb "alice" = (exAlice, none) := by decide
  simp only [AuthenticateUserCredential, hget]
  have hup : UpdateUserCredential exDao derive exFresh2 exDb "alice" "alice@x.com"
      exAlice.Password true = (none, { exDb with rows :=
        [exBob,
         { exAlice with
           Authenticated := true
           Salt := "s2"
           Password := derive "k" exAlice.Password "s2" }] }) := by
    have hfirst : gormFirst exDb.rows "alice" = (exAlice, none) := by decide
    have hopen : gormOpen exDb = .ok exDb.rows := rfl
    unfold UpdateUserCredential
    simp only [hopen, hfirst]
    simp [gormSave, exDb, exAlice, exBob, exDao, exFresh2]
  have h1 : exAlice.Username = "alice" := rfl
  have h2 : exAlice.Email = "alice@x.com" := rfl
  rw [h1, h2, hup]
  rfl

/-- C8, the code at a stored username. Whenever AuthenticateUserCredential
returns, the row of the username has the flag set, but its Salt is the fresh
salt and its Password is the hash of the stored hash under that salt. On alice
of exDb, with the fresh salt "s2": ID, Username, Email and the row of bob are
as before, Salt goes from "s1" to "s2" and Password is derived anew. -/
theorem AuthenticateUserCredential_rehashes :
    (∀ (dao : DefaultUserCredentialsDAO) (derive : Derive) (f : Fresh) (d : Database)
        (username : String) (record : UserCredential),
      d.rows.find? (fun r => r.Username == username) = some record →
      (AuthenticateUserCredential dao derive f d username).1 = .ok () →
      (AuthenticateUserCredential dao derive f d username).2.rows.find?
          (fun r => r.Username == username)
        = some { record with
            Authenticated := true
            Salt := f.salt
            Password := derive dao.SecretKey record.Password f.salt })
    ∧ (∀ derive : Derive,
        AuthenticateUserCredential exDao derive exFresh2 exDb "alice" =
          (.ok (), { exDb with rows :=
            [exBob,
             { exAlice with
               Authenticated := true
               Salt := "s2"
               Password := derive "k" exAlice.Password "s2" }] }))
    ∧ exAlice.Salt ≠ "s2"
    ∧ toyDerive "k" exAlice.Password "s2" ≠ exAlice.Password :=
  ⟨AuthenticateUserCredential_found, AuthenticateUserCredential_exAlice, by decide, by decide⟩

/-- C2, the code on the example. After a create with authenticated = false
the right password is refused with "This account email is not authenticated";
after AuthenticateUserCredential returns, the stored hash is the hash of the
old hash, so the same password is accepted only if the derivation collides on
it, and refused with "Incorrect password" otherwise. -/
theorem authenticated_gate_breaks (derive : Derive) :
    (CreateUserCredential exDao derive exFresh1 exEmpty "alice" "Sup3r" "alice@x.com" false).1
      = .ok "id1"
    ∧ CheckCredentials exDao derive
        (CreateUserCredential exDao derive exFresh1 exEmpty "alice" "Sup3r" "alice@x.com"
          false).2 "alice" "Sup3r"
      = .error (.goh "This account email is not authenticated" 401 none)
    ∧ (AuthenticateUserCredential exDao derive exFresh2
        (CreateUserCredential exDao derive exFresh1 exEmpty "alice" "Sup3r" "alice@x.com"
          false).2 "alice").1 = .ok ()
    ∧ CheckCredentials exDao derive
        (AuthenticateUserCredential exDao derive exFresh2
          (CreateUserCredential exDao derive exFresh1 exEmpty "alice" "Sup3r" "alice@x.com"
            false).2 "alice").2 "alice" "Sup3r"
      = (if derive "k" "Sup3r" "s2" = derive "k" (derive "k" "Sup3r" "s1") "s2" then .ok ()
         else .error (.goh "Incorrect password" 401 none))
    ∧ CheckCredentials exDao toyDerive
        (AuthenticateUserCredential exDao toyDerive exFresh2
          (CreateUserCredential exDao toyDerive exFresh1 exEmpty "alice" "Sup3r" "alice@x.com"
            false).2 "alice").2 "alice" "Sup3r"
      = .error (.goh "Incorrect password" 401 none) := by
  have hc : CreateUserCredential exDao derive exFresh1 exEmpty "alice" "Sup3r" "alice@x.com"
      false = (.ok "id1", { exEmpty with rows :=
        [{ ID := "id1", Username := "alice", Email := "alice@x.com",
           Password := derive "k" "Sup3r" "s1", Salt := "s1", Authenticated := false,
           CreatedAt := 1, UpdatedAt := 1 }] }) := rfl
  have ha : AuthenticateUserCredential exDao derive exFresh2
      { exEmpty with rows :=
        [{ ID := "id1", Username := "alice", Email := "alice@x.com",
           Password := derive "k" "Sup3r" "s1", Salt := "s1", Authenticated := false,
           CreatedAt := 1, UpdatedAt := 1 }] } "alice" =
      (.ok (), { exEmpty with rows :=
        [{ ID := "id1", Username := "alice", Email := "alice@x.com",
           Password := derive "k" (derive "k" "Sup3r" "s1") "s2", Salt := "s2",
           Authenticated := true, CreatedAt := 1, UpdatedAt := 1 }] }) := by
    simp [AuthenticateUserCredential, GetUserCredential, UpdateUserCredential, gormOpen,
      gormFirst, gormSave, exEmpty, exDao, exFresh2]
  refine ⟨by rw [hc], ?_, by rw [hc, ha], ?_, by decide⟩
  · rw [hc]
    simp [CheckCredentials, GetUserCredential, gormOpen, gormFirst, exEmpty, exDao]
  · rw [hc, ha]
    simp [CheckCredentials, GetUserCredential, gormOpen, gormFirst, exEmpty, exDao]

/-! ## The Authenticated flag and the uniqueness invariant -/

theorem CreateUserCredential_cases (dao : DefaultUserCredentialsDAO) (derive : Derive)
    (f : Fresh) (d : Database) (username password email : String) (authenticated : Bool) :
    (∃ e, CreateUserCredential dao derive f d username password email authenticated
        = (.error e, d))
    ∨ ((∀ r ∈ d.rows, r.Username ≠ username) ∧ (∀ r ∈ d.rows, r.Email ≠ email)
      ∧ CreateUserCredential dao derive f d username password email authenticated =
        (.ok f.uuid, { d with rows := d.rows ++
          [createdRow dao derive f username password email authenticated] })) := by
  cases hd : d.reachable with
  | false =>
    left
    exact ⟨.db .openFailed, by simp [CreateUserCredential, gormOpen, hd]⟩
  | true =>
    cases hfd : d.rows.find? (fun r => r.Username == username || r.Email == email) with
    | some first =>
      left
      exact ⟨_, CreateUserCredential_first_match dao derive f d username password email
        authenticated hd first hfd⟩
    | none =>
      have hno := List.find?_eq_none.mp hfd
      have hu : ∀ r ∈ d.rows, r.Username ≠ username := by
        intro r hr h
        have := hno r hr
        simp [h] at this
      have he : ∀ r ∈ d.rows, r.Email ≠ email := by
        intro r hr h
        have := hno r hr
        simp [h] at this
      have h := CreateUserCredential_fresh dao derive f d username password email
        authenticated hd hu he
      cases hc : d.rows.any (fun r => r.ID == f.uuid) with
      | true =>
        left
        rw [hc] at h
        exact ⟨_, h⟩
      | false =>
        right
        rw [hc] at h
        exact ⟨hu, he, by rw [h]; simp [hd]⟩

theorem CreateUserCredential_ok (dao : DefaultUserCredentialsDAO) (derive : Derive)
    (f : Fresh) (d : Database) (username password email : String) (authenticated : Bool)
    (id : String)
    (hok : (CreateUserCredential dao derive f d username password email authenticated).1
      = .ok id) :
    (∀ r ∈ d.rows, r.Username ≠ username) ∧ (∀ r ∈ d.rows, r.Email ≠ email)
    ∧ CreateUserCredential dao derive f d username password email authenticated =
        (.ok f.uuid, { d with rows := d.rows ++
          [createdRow dao derive f username password email authenticated] }) := by
  rcases CreateUserCredential_cases dao derive f d username password email authenticated with
    ⟨e, h⟩ | h
  · rw [h] at hok
    simp at hok
  · exact h

/-- C9, as stated, fails on both halves: a create with authenticated = true
stores a row whose flag is true, and an update with authenticated = true
turns the false flag of alice into true. -/
theorem authenticated_flag_counterexample :
    (CreateUserCredential exDao toyDerive exFresh1 exEmpty "alice" "Sup3r" "alice@x.com"
        true).1 = .ok "id1"
    ∧ (CreateUserCredential exDao toyDerive exFresh1 exEmpty "alice" "Sup3r" "alice@x.com"
        true).2.rows.map (fun r => (r.Username, r.Authenticated)) = [("alice", true)]
    ∧ exDb.rows.map (fun r => (r.Username, r.Authenticated)) = [("bob", true), ("alice", false)]
    ∧ (UpdateUserCredential exDao toyDerive exFresh2 exDb "alice" "alice@x.com" "Sup3r"
        true).1 = none
    ∧ (UpdateUserCredential exDao toyDerive exFresh2 exDb "alice" "alice@x.com" "Sup3r"
        true).2.rows.map (fun r => (r.Username, r.Authenticated))
        = [("bob", true), ("alice", true)] := by
  decide

/-- C9, amended. The flag follows the argument: the row inserted by a
successful CreateUserCredential has Authenticated equal to the authenticated
argument of the call, and after an UpdateUserCredential that returns nil on a
stored username the row of that username has Authenticated equal to the
authenticated argument of the call, whatever it was before. -/
theorem authenticated_flag_follows_argument (dao : DefaultUserCredentialsDAO)
    (derive : Derive) (f : Fresh) (d : Database) (username password email : String)
    (authenticated : Bool) :
    (∀ id, (CreateUserCredential dao derive f d username password email authenticated).1
        = .ok id →
      ∃ row : UserCredential,
        (CreateUserCredential dao derive f d username password email authenticated).2.rows
          = d.rows ++ [row]
        ∧ row.ID = id ∧ row.Username = username ∧ row.Authenticated = authenticated)
    ∧ ((∃ r ∈ d.rows, r.Username = username) →
        (UpdateUserCredential dao derive f d username email password authenticated).1 = none →
        ∃ row : UserCredential,
          (UpdateUserCredential dao derive f d username email password
              authenticated).2.rows.find? (fun r => r.Username == username) = some row
          ∧ row.Authenticated = authenticated) := by
  constructor
  · intro id hok
    obtain ⟨-, -, h⟩ := CreateUserCredential_ok dao derive f d username password email
      authenticated id hok
    rw [h] at hok
    refine ⟨createdRow dao derive f username password email authenticated, by rw [h], ?_,
      rfl, rfl⟩
    simpa [createdRow] using hok
  · rintro ⟨r, hr, hru⟩ hok
    cases hfd : d.rows.find? (fun r => r.Username == username) with
    | none =>
      have := (List.find?_eq_none.mp hfd) r hr
      simp [hru] at this
    | some record =>
      obtain ⟨-, h2, hfind, -, -⟩ := UpdateUserCredential_found dao derive f d username email
        password authenticated record hfd hok
      exact ⟨updatedRow dao derive f record email password authenticated,
        by rw [h2]; exact hfind, rfl⟩

/-- C9 amended, on the example: alice is updated with authenticated = true. -/
theorem authenticated_flag_follows_argument_witness :
    ∃ row : UserCredential,
      (UpdateUserCredential exDao toyDerive exFresh2 exDb "alice" "alice@x.com" "Sup3r"
          true).2.rows.find? (fun r => r.Username == "alice") = some row
      ∧ row.Authenticated = true :=
  (authenticated_flag_follows_argument exDao toyDerive exFresh2 exDb "alice" "Sup3r"
    "alice@x.com" true).2 (by decide) (by decide)

theorem unique_append {rows : List UserCredential} {row : UserCredential}
    (hU : Unique rows) (hu : ∀ r ∈ rows, r.Username ≠ row.Username)
    (he : ∀ r ∈ rows, r.Email ≠ row.Email) : Unique (rows ++ [row]) := by
  obtain ⟨h1, h2⟩ := hU
  constructor
  · rw [List.map_append, List.nodup_append]
    refine ⟨h1, by simp, ?_⟩
    intro a ha hb
    simp only [List.map_cons, List.map_nil, List.mem_singleton] at hb
    obtain ⟨r, hr, rfl⟩ := List.mem_map.mp ha
    exact hu r hr hb
  · rw [List.map_append, List.nodup_append]
    refine ⟨h2, by simp, ?_⟩
    intro a ha hb
    simp only [List.map_cons, List.map_nil, List.mem_singleton] at hb
    obtain ⟨r, hr, rfl⟩ := List.mem_map.mp ha
    exact he r hr hb

theorem nodup_map_rewrite (key : UserCredential → String) (rows : List UserCredential)
    (g : UserCredential → UserCredential) (row : UserCredential)
    (hg : ∀ r, g r = r ∨ g r = row)
    (hnd : (rows.map key).Nodup)
    (hcnt : ((rows.map g).filter (fun r => key r == key row)).length ≤ 1) :
    ((rows.map g).map key).Nodup := by
  rw [List.nodup_iff_count_le_one]
  intro a
  rw [List.count_eq_countP, List.countP_map]
  by_cases ha : a = key row
  · subst ha
    rw [List.countP_eq_length_filter]
    exact hcnt
  · calc List.countP ((fun x => x == a) ∘ key) (rows.map g)
        = List.countP (((fun x => x == a) ∘ key) ∘ g) rows := by rw [List.countP_map]
      _ ≤ List.countP ((fun x => x == a) ∘ key) rows := by
          apply List.countP_mono_left
          intro r _ h
          rcases hg r with h1 | h1
          · rw [Function.comp_apply, h1] at h
            exact h
          · rw [Function.comp_apply, h1] at h
            simp only [Function.comp_apply, beq_iff_eq] at h
            exact absurd h.symm ha
      _ = List.count a (rows.map key) := by rw [List.count_eq_countP, List.countP_map]
      _ ≤ 1 := List.nodup_iff_count_le_one.mp hnd a

theorem gormSave_unique {rows rows2 : List UserCredential} {value : UserCredential}
    (hU : Unique rows) (h : gormSave rows value = .ok rows2) : Unique rows2 := by
  obtain ⟨h1, -, h2, h3⟩ := gormSave_rewrite rows rows2 value h
  subst h1
  constructor
  · exact nodup_map_rewrite (fun r => r.Username) rows
      (fun r => if r.ID = value.ID then value else r) value
      (by intro r; by_cases hr : r.ID = value.ID <;> simp [hr]) hU.1 h2
  · exact nodup_map_rewrite (fun r => r.Email) rows
      (fun r => if r.ID = value.ID then value else r) value
      (by intro r; by_cases hr : r.ID = value.ID <;> simp [hr]) hU.2 h3

theorem runCreates_preserves (dao : DefaultUserCredentialsDAO) (derive : Derive)
    (calls : List CreateCall) (d : Database) (hU : Unique d.rows) :
    Unique (runCreates dao derive calls d).rows := by
  induction calls generalizing d with
  | nil => exact hU
  | cons c cs ih =>
    simp only [runCreates]
    apply ih
    rcases CreateUserCredential_cases dao derive c.fresh d c.username c.password c.email
      c.authenticated with ⟨e, h⟩ | ⟨hu, he, h⟩
    · rw [h]; exact hU
    · rw [h]
      exact unique_append hU hu he

/-- C4. Starting from a table with no rows, after any sequence of
CreateUserCredential calls executed one after another no two rows share a
username and no two share an email; and on every database a call whose
username or email is already stored fails and leaves the database as it was. -/
theorem runCreates_unique (dao : DefaultUserCredentialsDAO) (derive : Derive)
    (calls : List CreateCall) (reachable : Bool) :
    Unique (runCreates dao derive calls { reachable := reachable, rows := [] }).rows
    ∧ ∀ (d : Database) (c : CreateCall),
        (∃ r ∈ d.rows, r.Username = c.username ∨ r.Email = c.email) →
        ∃ e, CreateUserCredential dao derive c.fresh d c.username c.password c.email
          c.authenticated = (.error e, d) := by
  constructor
  · exact runCreates_preserves dao derive calls _ ⟨List.nodup_nil, List.nodup_nil⟩
  · rintro d c ⟨r, hr, h⟩
    rcases CreateUserCredential_cases dao derive c.fresh d c.username c.password c.email
      c.authenticated with he | ⟨hu, he, -⟩
    · exact he
    · rcases h with h | h
      · exact absurd h (hu r hr)
      · exact absurd h (he r hr)

/-- C4 on the example: of the three calls of exCalls the third repeats the
username of the first, so two rows are stored; and a call with the email of
bob is refused on exDb. -/
theorem runCreates_unique_witness :
    (runCreates exDao toyDerive exCalls exEmpty).rows.length = 2
    ∧ Unique (runCreates exDao toyDerive exCalls exEmpty).rows
    ∧ ∃ e, CreateUserCredential exDao toyDerive exFresh2 exDb "dave" "pw" "bob@x.com" false
        = (.error e, exDb) :=
  ⟨by decide, (runCreates_unique exDao toyDerive exCalls true).1,
    (runCreates_unique exDao toyDerive exCalls true).2 exDb
      { fresh := exFresh2, username := "dave", password := "pw", email := "bob@x.com",
        authenticated := false } (by decide)⟩

/-- C10. On a table in which no two rows share a username and no two share an
email, after an UpdateUserCredential that returns nil the same holds; and
when the supplied email is stored on a row of another username, the update
does not return nil. -/
theorem UpdateUserCredential_unique (dao : DefaultUserCredentialsDAO) (derive : Derive)
    (f : Fresh) (d : Database) (username email password : String) (authenticated : Bool)
    (hU : Unique d.rows) :
    ((UpdateUserCredential dao derive f d username email password authenticated).1 = none →
      Unique (UpdateUserCredential dao derive f d username email password
        authenticated).2.rows)
    ∧ ((∃ r ∈ d.rows, r.Email = email ∧ r.Username ≠ username) →
        (UpdateUserCredential dao derive f d username email password authenticated).1
          ≠ none) := by
  have part1 : (UpdateUserCredential dao derive f d username email password
      authenticated).1 = none →
      Unique (UpdateUserCredential dao derive f d username email password
        authenticated).2.rows := by
    intro hok
    unfold UpdateUserCredential at hok ⊢
    split
    · exact hU
    · rename_i rows hopen
      have hrows : rows = d.rows := by
        unfold gormOpen at hopen
        split at hopen <;> simp at hopen
        exact hopen.symm
      subst hrows
      simp only
      split
      · exact hU
      · rename_i rows2 hs
        exact gormSave_unique hU hs
  refine ⟨part1, ?_⟩
  rintro ⟨r, hr, hre, hru⟩ hok
  have hU2 := part1 hok
  cases hfd : d.rows.find? (fun r => r.Username == username) with
  | none =>
    have hno : ∀ r ∈ d.rows, r.Username ≠ username := by
      intro r hr
      simpa using (List.find?_eq_none.mp hfd) r hr
    cases hd : d.reachable with
    | false => simp [UpdateUserCredential, gormOpen, hd] at hok
    | true =>
      have hany : d.rows.any (fun r => r.ID == f.uuid || r.Username == "" || r.Email == email)
          = true := by
        rw [List.any_eq_true]
        exact ⟨r, hr, by simp [hre]⟩
      simp [UpdateUserCredential, gormOpen, hd, gormFirst_none hno, gormSave, gormCreate,
        UserCredential.zero, hany, Except.map] at hok
  | some record =>
    obtain ⟨-, h2, -, -, -⟩ := UpdateUserCredential_found dao derive f d username email
      password authenticated record hfd hok
    rw [h2] at hU2
    have hnd := hU2.2
    simp only [rewritten, List.map_map] at hnd
    have hrec := find_some_mem hfd
    have := List.inj_on_of_nodup_map hnd hr hrec.1 (by
      simp only [Function.comp_apply]
      by_cases h1 : r.ID = record.ID <;> simp [h1, updatedRow, hre])
    rw [this] at hru
    exact hru hrec.2

/-- C10 on the example: alice can move to a new email, the table staying
free of duplicates, and cannot take the email of bob. -/
theorem UpdateUserCredential_unique_witness :
    Unique (UpdateUserCredential exDao toyDerive exFresh2 exDb "alice" "alice2@x.com" "pw"
      true).2.rows
    ∧ (UpdateUserCredential exDao toyDerive exFresh2 exDb "alice" "bob@x.com" "pw" true).1
      ≠ none :=
  ⟨(UpdateUserCredential_unique exDao toyDerive exFresh2 exDb "alice" "alice2@x.com" "pw" true
      (by decide)).1 (by decide),
   (UpdateUserCredential_unique exDao toyDerive exFresh2 exDb "alice" "bob@x.com" "pw" true
      (by decide)).2 (by decide)⟩

end Whisper
